import Mathlib

/-!
Verification development for the Streamlit quiz application
(`quiz_streamlit.py`).  The SQLite question store is embedded as a list of
rows, the Streamlit session state as a record, and the event-driven
controller (`start_quiz`, `submit_answer`, return-to-menu, reset) as pure
state transformers.  SQL `ORDER BY RANDOM()` is modelled by an arbitrary
permutation of the matching rows, and `random.shuffle` by a Fisher-Yates
pass driven by an arbitrary stream of random numbers.
-/

namespace Quiz

/-- One row of the per-user `questions` table: schema
`(id, question, option1..option5, answer, has_asked, user_answered_correctly)`
from `initialize_user_database`. -/
structure Row where
  id : Int
  question : String
  option1 : String
  option2 : String
  option3 : String
  option4 : String
  option5 : String
  answer : String
  has_asked : Bool
  user_answered_correctly : Bool
deriving DecidableEq, Repr

/-- The eight columns selected by `get_random_questions`
(`SELECT id, question, option1..option5, answer`). -/
structure Question where
  id : Int
  question : String
  option1 : String
  option2 : String
  option3 : String
  option4 : String
  option5 : String
  answer : String
deriving DecidableEq, Repr

/-- A fetched question together with the session-local
`shuffled_options` key added by `start_quiz`. -/
structure BatchQuestion extends Question where
  shuffled_options : List String
deriving DecidableEq, Repr

/-- One entry of `st.session_state.results`, as built in `submit_answer`. -/
structure QuizResult where
  question : String
  correct_answer : String
  user_answer : String
  is_correct : Bool
deriving DecidableEq, Repr

/-- The `current_stage` session value: `menu`, `quiz` or `results`. -/
inductive Stage where
  | menu
  | quiz
  | results
deriving DecidableEq, Repr

/-- The three quiz types offered by `render_menu`; exactly the keys of
`quiz_option_map` in `start_quiz`. -/
inductive QuizType where
  | randomQuiz
  | untestedQuiz
  | incorrectQuiz
deriving DecidableEq, Repr

/-- The string label of a quiz type (the keys of `quiz_option_map`). -/
def quiz_type_label : QuizType → String
  | QuizType.randomQuiz => "Random Quiz"
  | QuizType.untestedQuiz => "Untested Questions Quiz"
  | QuizType.incorrectQuiz => "Incorrect Questions Quiz"

/-- The dictionary `quiz_option_map` of `start_quiz`. -/
def quiz_option_map : QuizType → Nat
  | QuizType.randomQuiz => 1
  | QuizType.untestedQuiz => 2
  | QuizType.incorrectQuiz => 3

/-- The Streamlit session state relevant to the quiz: exactly the keys
set up by `initialize_session_state`. -/
structure SessionState where
  current_stage : Stage
  quiz_type : Option String
  questions : List BatchQuestion
  current_question_index : Nat
  user_answers : List String
  results : List QuizResult
deriving DecidableEq, Repr

/-- Session state together with the user's persistent question table. -/
structure AppState where
  session : SessionState
  store : List Row
deriving DecidableEq, Repr

/-- The defaults installed by `initialize_session_state`. -/
def initial_session : SessionState :=
  { current_stage := Stage.menu
    quiz_type := none
    questions := []
    current_question_index := 0
    user_answers := []
    results := [] }

/-- The `WHERE` clause of `get_random_questions` for each option:
option 1 has no clause, option 2 is `has_asked = 0`, option 3 is
`has_asked = 1 AND user_answered_correctly = 0`.  Any other option number
executes no query, so no row matches. -/
def filterPred : Nat → Row → Bool
  | 1, _ => true
  | 2, r => !r.has_asked
  | 3, r => r.has_asked && !r.user_answered_correctly
  | _, _ => false

/-- The rows of the table matching the option's `WHERE` clause. -/
def matchingRows (store : List Row) (option : Nat) : List Row :=
  store.filter (filterPred option)

/-- Projection of a row to the eight selected columns. -/
def rowToQuestion (r : Row) : Question :=
  { id := r.id
    question := r.question
    option1 := r.option1
    option2 := r.option2
    option3 := r.option3
    option4 := r.option4
    option5 := r.option5
    answer := r.answer }

/-- Embeds `QuizApp.get_random_questions`: the database orders the
matching rows randomly (`shuffled` stands for that random permutation,
constrained to `matchingRows` in the theorems) and `LIMIT 10` keeps the
first ten; each row becomes a dict of the eight selected columns. -/
def get_random_questions (shuffled : List Row) : List Question :=
  (shuffled.take 10).map rowToQuestion

/-- Embeds `QuizApp.reset_all_questions`: the unconditional
`UPDATE questions SET has_asked = 0, user_answered_correctly = 0`. -/
def reset_all_questions (store : List Row) : List Row :=
  store.map fun r => { r with has_asked := false, user_answered_correctly := false }

/-- Embeds the `UPDATE questions SET has_asked = 1,
user_answered_correctly = ? WHERE id = ?` statement of `submit_answer`
(the spec's `record_answer`). -/
def updateQuestionRecord (store : List Row) (qid : Int) (correct : Bool) : List Row :=
  store.map fun r =>
    if r.id = qid then { r with has_asked := true, user_answered_correctly := correct } else r

/-- Embeds `QuizApp.initialize_user_database`: the table is created if
absent; if it is empty every master row is inserted verbatim (all ten
columns of `SELECT *` are bound in the `INSERT`), otherwise nothing is
copied. -/
def init_user_database (user master : List Row) : List Row :=
  if user.isEmpty then master else user

/-- Swap the elements at positions `i` and `j`, the single step of
Fisher-Yates; out-of-range indices leave the list unchanged. -/
def swapList (l : List String) (i j : Nat) : List String :=
  match l[i]?, l[j]? with
  | some a, some b => (l.set i b).set j a
  | _, _ => l

/-- The loop of `random.shuffle`: for the current index `i+1` down to 1,
draw `j` uniformly in `[0, i+1]` (here `rand (i+1) % (i+2)`) and swap. -/
def fisherYatesAux (rand : Nat → Nat) : Nat → List String → List String
  | 0, l => l
  | Nat.succ i, l => fisherYatesAux rand i (swapList l (i + 1) (rand (i + 1) % (i + 2)))

/-- Embeds `random.shuffle(options)`, driven by the random stream `rand`. -/
def shuffleList (rand : Nat → Nat) (l : List String) : List String :=
  fisherYatesAux rand (l.length - 1) l

/-- The option list `[option1, ..., option5]` built by `start_quiz`. -/
def optionList (q : Question) : List String :=
  [q.option1, q.option2, q.option3, q.option4, q.option5]

/-- The `for question in questions` loop of `start_quiz`: each question
gets its own shuffled copy of its option list; `rands i` is the slice of
the random stream consumed for the question at position `i`. -/
def buildBatch (rands : Nat → Nat → Nat) (i : Nat) : List Question → List BatchQuestion
  | [] => []
  | q :: qs =>
      { toQuestion := q, shuffled_options := shuffleList (rands i) (optionList q) }
        :: buildBatch rands (i + 1) qs

/-- Embeds `QuizApp.start_quiz`: fetch the batch, abort (state unchanged,
`st.error` shown) when fewer than 10 questions came back, otherwise
shuffle each question's options and install the fresh quiz session. -/
def start_quiz (shuffled : List Row) (rands : Nat → Nat → Nat)
    (s : AppState) (qt : QuizType) : AppState :=
  if (get_random_questions shuffled).length < 10 then s
  else
    { store := s.store
      session :=
        { current_stage := Stage.quiz
          quiz_type := some (quiz_type_label qt)
          questions := buildBatch rands 0 (get_random_questions shuffled)
          current_question_index := 0
          user_answers := []
          results := [] } }

/-- Embeds `QuizApp.submit_answer`.  The unguarded indexing
`st.session_state.questions[st.session_state.current_question_index]`
raises `IndexError` out of bounds, modelled as `none`.  Otherwise the
answer is appended, judged against the stored correct answer, the result
recorded, the row's flags persisted, the position advanced, and the stage
moved to `results` once the batch is exhausted. -/
def submit_answer (s : AppState) (user_answer : String) : Option AppState :=
  match s.session.questions[s.session.current_question_index]? with
  | none => none
  | some current_question =>
      let is_correct := user_answer == current_question.answer
      let result : QuizResult :=
        { question := current_question.question
          correct_answer := current_question.answer
          user_answer := user_answer
          is_correct := is_correct }
      let newIndex := s.session.current_question_index + 1
      let newStage :=
        if s.session.questions.length ≤ newIndex then Stage.results
        else s.session.current_stage
      some
        { store := updateQuestionRecord s.store current_question.id is_correct
          session :=
            { s.session with
                user_answers := s.session.user_answers ++ [user_answer]
                results := s.session.results ++ [result]
                current_question_index := newIndex
                current_stage := newStage } }

/-- Embeds the `Return to Menu` handler of `render_results`: it only sets
`current_stage` back to `menu` (and reruns). -/
def return_to_menu (s : AppState) : AppState :=
  { s with session := { s.session with current_stage := Stage.menu } }

/-- Embeds the `Reset All Questions` handler of `render_menu`. -/
def on_reset (s : AppState) : AppState :=
  { s with store := reset_all_questions s.store }

/-- The states reachable by the application loop `run`: events are
dispatched per stage (start and reset from the menu, submit from the quiz
screen, return from the results screen), and every batch handed to
`start_quiz` is a random permutation of the rows matching the chosen
filter. -/
inductive Reachable : AppState → Prop where
  | init (store : List Row) : Reachable { session := initial_session, store := store }
  | start (s : AppState) (qt : QuizType) (shuffled : List Row) (rands : Nat → Nat → Nat)
      (h : Reachable s) (hstage : s.session.current_stage = Stage.menu)
      (hperm : shuffled.Perm (matchingRows s.store (quiz_option_map qt))) :
      Reachable (start_quiz shuffled rands s qt)
  | submit (s s2 : AppState) (a : String) (h : Reachable s)
      (hstage : s.session.current_stage = Stage.quiz)
      (hsub : submit_answer s a = some s2) : Reachable s2
  | returnMenu (s : AppState) (h : Reachable s)
      (hstage : s.session.current_stage = Stage.results) : Reachable (return_to_menu s)
  | reset (s : AppState) (h : Reachable s)
      (hstage : s.session.current_stage = Stage.menu) : Reachable (on_reset s)

/-- The inductive session invariant maintained by every event handler. -/
def SessionInv (s : AppState) : Prop :=
  s.session.current_question_index = s.session.results.length ∧
  s.session.results.length = s.session.user_answers.length ∧
  s.session.current_question_index ≤ s.session.questions.length ∧
  s.session.questions.length ≤ 10 ∧
  (s.session.current_stage = Stage.quiz →
    s.session.current_question_index < s.session.questions.length)

/-! ### Helper lemmas -/

theorem swapList_perm (l : List String) (i j : Nat) : (swapList l i j).Perm l := by
  unfold swapList
  cases hi : l[i]? with
  | none => exact List.Perm.refl l
  | some a =>
    cases hj : l[j]? with
    | none => exact List.Perm.refl l
    | some b =>
      obtain ⟨hi2, hia⟩ := List.getElem?_eq_some.mp hi
      obtain ⟨hj2, hjb⟩ := List.getElem?_eq_some.mp hj
      show ((l.set i b).set j a).Perm l
      rw [List.perm_iff_count]
      intro c
      have hj3 : j < (l.set i b).length := by rw [List.length_set]; exact hj2
      have h1 := List.count_set a c (l.set i b) j hj3
      have h2 := List.count_set b c l i hi2
      rw [List.getElem_set] at h1
      have hb : (if i = j then b else l[j]) = b := by
        split
        · rfl
        · exact hjb
      rw [hb] at h1
      rw [hia] at h2
      have hx : (if (a == c) = true then 1 else 0) ≤ List.count c l := by
        split
        · rename_i hac
          have hmem : a ∈ l := hia ▸ List.getElem_mem hi2
          exact List.count_pos_iff.mpr (by rwa [eq_of_beq hac] at hmem)
        · exact Nat.zero_le _
      omega

theorem fisherYatesAux_perm (rand : Nat → Nat) (n : Nat) (l : List String) :
    (fisherYatesAux rand n l).Perm l := by
  induction n generalizing l with
  | zero => exact List.Perm.refl l
  | succ i ih =>
    exact (ih (swapList l (i + 1) (rand (i + 1) % (i + 2)))).trans
      (swapList_perm l (i + 1) (rand (i + 1) % (i + 2)))

theorem shuffleList_perm (rand : Nat → Nat) (l : List String) :
    (shuffleList rand l).Perm l :=
  fisherYatesAux_perm rand (l.length - 1) l

theorem length_buildBatch (rands : Nat → Nat → Nat) (i : Nat) (qs : List Question) :
    (buildBatch rands i qs).length = qs.length := by
  induction qs generalizing i with
  | nil => rfl
  | cons q qs ih => simp [buildBatch, ih]

theorem mem_buildBatch {bq : BatchQuestion} {rands : Nat → Nat → Nat} {i : Nat}
    {qs : List Question} (h : bq ∈ buildBatch rands i qs) :
    ∃ q ∈ qs, ∃ j, bq =
      { toQuestion := q, shuffled_options := shuffleList (rands j) (optionList q) } := by
  induction qs generalizing i with
  | nil => simp [buildBatch] at h
  | cons q qs ih =>
    simp only [buildBatch, List.mem_cons] at h
    rcases h with h | h
    · exact ⟨q, List.mem_cons_self q qs, i, h⟩
    · obtain ⟨q2, hq2, j, hj⟩ := ih h
      exact ⟨q2, List.mem_cons_of_mem q hq2, j, hj⟩

theorem length_get_random_questions (shuffled : List Row) :
    (get_random_questions shuffled).length = min 10 shuffled.length := by
  simp [get_random_questions]

theorem sessionInv_initial (store : List Row) :
    SessionInv { session := initial_session, store := store } := by
  simp [SessionInv, initial_session]

theorem sessionInv_start {s : AppState} (shuffled : List Row)
    (rands : Nat → Nat → Nat) (qt : QuizType) (h : SessionInv s) :
    SessionInv (start_quiz shuffled rands s qt) := by
  unfold start_quiz
  split
  · exact h
  · rename_i hlen
    rw [length_get_random_questions] at hlen
    simp only [SessionInv, length_buildBatch, length_get_random_questions]
    refine ⟨rfl, rfl, by omega, by omega, fun _ => by omega⟩

theorem sessionInv_submit {s s2 : AppState} {a : String}
    (h : SessionInv s) (hsub : submit_answer s a = some s2) : SessionInv s2 := by
  unfold submit_answer at hsub
  split at hsub
  · exact absurd hsub (by simp)
  · rename_i cq hq
    obtain ⟨hlt, -⟩ := List.getElem?_eq_some.mp hq
    obtain ⟨h1, h2, h3, h4, h5⟩ := h
    obtain rfl := Option.some.inj hsub
    refine ⟨by simp [h1], by simp [h2], by simpa using hlt, by simpa using h4, ?_⟩
    simp only
    split
    · intro hcontra; exact Stage.noConfusion hcontra
    · rename_i hgt
      intro _
      omega

theorem sessionInv_return {s : AppState} (h : SessionInv s) :
    SessionInv (return_to_menu s) := by
  obtain ⟨h1, h2, h3, h4, _⟩ := h
  exact ⟨h1, h2, h3, h4, fun hcontra => absurd hcontra (fun hc => Stage.noConfusion hc)⟩

theorem sessionInv_reset {s : AppState} (h : SessionInv s) : SessionInv (on_reset s) := h

theorem reachable_inv {s : AppState} (h : Reachable s) : SessionInv s := by
  induction h with
  | init store => exact sessionInv_initial store
  | start s qt shuffled rands h hstage hperm ih => exact sessionInv_start shuffled rands qt ih
  | submit s s2 a h hstage hsub ih => exact sessionInv_submit ih hsub
  | returnMenu s h hstage ih => exact sessionInv_return ih
  | reset s h hstage ih => exact sessionInv_reset ih

/-! ### Concrete fixtures for witnesses and counterexamples -/

/-- A concrete question row with the given id and flag values. -/
def mkRow (i : Int) (ha ac : Bool) : Row :=
  { id := i, question := "Q", option1 := "A", option2 := "B", option3 := "C"
    option4 := "D", option5 := "E", answer := "A", has_asked := ha
    user_answered_correctly := ac }

/-- A user table with three rows (fewer than a full batch). -/
def store3 : List Row := (List.range 3).map fun n => mkRow (Int.ofNat n) false false

/-- A user table with exactly ten rows. -/
def store10 : List Row := (List.range 10).map fun n => mkRow (Int.ofNat n) false false

/-- A user table with eleven rows (more than one batch). -/
def store11 : List Row := (List.range 11).map fun n => mkRow (Int.ofNat n) false false

/-- A two-row table: question 1 never asked, question 2 answered right. -/
def cstore6 : List Row := [mkRow 1 false false, mkRow 2 true true]

/-- A fixed random stream for witnesses. -/
def rands0 : Nat → Nat → Nat := fun _ _ => 0

/-- A concrete batch question whose options are in stored order. -/
def dummyBatchQ : BatchQuestion :=
  { toQuestion := rowToQuestion (mkRow 1 false false)
    shuffled_options := ["A", "B", "C", "D", "E"] }

/-! ### Claims -/

/-- Claim C1: after every transition of the session state machine the
current position index equals the length of the accumulated results list
and lies in `[0, 10]`; `start_quiz` (on success) sets position 0 with
empty answers and results, and each `submit_answer` appends exactly one
result and advances the position by exactly one. -/
theorem c1_session_state_invariant :
    ∀ s : AppState, Reachable s →
      (s.session.current_question_index = s.session.results.length ∧
        s.session.current_question_index ≤ 10) ∧
      (∀ (shuffled : List Row) (rands : Nat → Nat → Nat) (qt : QuizType),
        10 ≤ shuffled.length →
        (start_quiz shuffled rands s qt).session.current_question_index = 0 ∧
        (start_quiz shuffled rands s qt).session.user_answers = [] ∧
        (start_quiz shuffled rands s qt).session.results = []) ∧
      (∀ (a : String) (s2 : AppState), submit_answer s a = some s2 →
        s2.session.current_question_index = s.session.current_question_index + 1 ∧
        ∃ r, s2.session.results = s.session.results ++ [r]) := by
  intro s hs
  have hinv := reachable_inv hs
  refine ⟨⟨hinv.1, ?_⟩, ?_, ?_⟩
  · have h3 := hinv.2.2.1
    have h4 := hinv.2.2.2.1
    omega
  · intro shuffled rands qt hlen
    unfold start_quiz
    rw [if_neg (by rw [length_get_random_questions]; omega)]
    exact ⟨rfl, rfl, rfl⟩
  · intro a s2 hsub
    unfold submit_answer at hsub
    split at hsub
    · exact absurd hsub (by simp)
    · obtain rfl := Option.some.inj hsub
      exact ⟨rfl, ⟨_, rfl⟩⟩

/-- Witness for C1 at the initial state and a concrete successful start. -/
theorem c1_witness :
    ((AppState.mk initial_session store10).session.current_question_index =
      (AppState.mk initial_session store10).session.results.length ∧
      (AppState.mk initial_session store10).session.current_question_index ≤ 10) ∧
    (start_quiz store10 rands0 (AppState.mk initial_session store10)
        QuizType.randomQuiz).session.current_question_index = 0 :=
  ⟨(c1_session_state_invariant _ (Reachable.init store10)).1,
    ((c1_session_state_invariant _ (Reachable.init store10)).2.1 store10 rands0
      QuizType.randomQuiz (by decide)).1⟩

/-- Claim C2: for every filter option, the query returns at most 10
questions, every returned question comes from a stored row matching the
filter's predicate, and no question id appears twice in one result. -/
theorem c2_query_sound :
    ∀ (store shuffled : List Row) (opt : Nat),
      opt = 1 ∨ opt = 2 ∨ opt = 3 →
      shuffled.Perm (matchingRows store opt) →
      (store.map Row.id).Nodup →
      (get_random_questions shuffled).length ≤ 10 ∧
      (∀ q ∈ get_random_questions shuffled,
        ∃ r ∈ store, filterPred opt r = true ∧ rowToQuestion r = q) ∧
      ((get_random_questions shuffled).map Question.id).Nodup := by
  intro store shuffled opt hopt hperm hnodup
  refine ⟨?_, ?_, ?_⟩
  · rw [length_get_random_questions]; omega
  · intro q hq
    simp only [get_random_questions, List.mem_map] at hq
    obtain ⟨r, hr, rfl⟩ := hq
    have hr2 : r ∈ shuffled := (List.take_sublist 10 shuffled).subset hr
    have hr3 : r ∈ matchingRows store opt := hperm.mem_iff.mp hr2
    rw [matchingRows, List.mem_filter] at hr3
    exact ⟨r, hr3.1, hr3.2, rfl⟩
  · have hmm : (get_random_questions shuffled).map Question.id =
        (shuffled.map Row.id).take 10 := by
      rw [get_random_questions, List.map_map, List.map_take]
      rfl
    rw [hmm]
    refine List.Nodup.sublist (List.take_sublist 10 _) ?_
    exact (hperm.map Row.id).nodup_iff.mpr
      (List.Nodup.sublist (List.Sublist.map Row.id (List.filter_sublist store)) hnodup)

/-- Witness for C2 on a concrete table with the INCORRECT filter. -/
theorem c2_witness :
    (get_random_questions (matchingRows cstore6 3)).length ≤ 10 ∧
    ((get_random_questions (matchingRows cstore6 3)).map Question.id).Nodup :=
  ⟨(c2_query_sound cstore6 (matchingRows cstore6 3) 3 (Or.inr (Or.inr rfl))
      (List.Perm.refl _) (by decide)).1,
    (c2_query_sound cstore6 (matchingRows cstore6 3) 3 (Or.inr (Or.inr rfl))
      (List.Perm.refl _) (by decide)).2.2⟩

/-- Claim C3: from the menu, `start_quiz` either aborts with the state
completely unchanged (when fewer than 10 questions match the filter) or
enters the quiz stage with a batch of exactly 10 questions, position 0
and empty answers and results; the quiz stage is never entered with a
batch of any other size. -/
theorem c3_start_full_batch_or_abort :
    ∀ (s : AppState) (qt : QuizType) (shuffled : List Row) (rands : Nat → Nat → Nat),
      s.session.current_stage = Stage.menu →
      shuffled.Perm (matchingRows s.store (quiz_option_map qt)) →
      ((matchingRows s.store (quiz_option_map qt)).length < 10 →
        start_quiz shuffled rands s qt = s) ∧
      (10 ≤ (matchingRows s.store (quiz_option_map qt)).length →
        (start_quiz shuffled rands s qt).session.current_stage = Stage.quiz ∧
        (start_quiz shuffled rands s qt).session.questions.length = 10 ∧
        (start_quiz shuffled rands s qt).session.current_question_index = 0 ∧
        (start_quiz shuffled rands s qt).session.user_answers = [] ∧
        (start_quiz shuffled rands s qt).session.results = []) ∧
      ((start_quiz shuffled rands s qt).session.current_stage = Stage.quiz →
        (start_quiz shuffled rands s qt).session.questions.length = 10) := by
  intro s qt shuffled rands hstage hperm
  have hlen := hperm.length_eq
  have habort : (matchingRows s.store (quiz_option_map qt)).length < 10 →
      start_quiz shuffled rands s qt = s := by
    intro hlt
    unfold start_quiz
    rw [if_pos (by rw [length_get_random_questions]; omega)]
  have hsucc : 10 ≤ (matchingRows s.store (quiz_option_map qt)).length →
      (start_quiz shuffled rands s qt).session.current_stage = Stage.quiz ∧
      (start_quiz shuffled rands s qt).session.questions.length = 10 ∧
      (start_quiz shuffled rands s qt).session.current_question_index = 0 ∧
      (start_quiz shuffled rands s qt).session.user_answers = [] ∧
      (start_quiz shuffled rands s qt).session.results = [] := by
    intro hge
    unfold start_quiz
    rw [if_neg (by rw [length_get_random_questions]; omega)]
    refine ⟨rfl, ?_, rfl, rfl, rfl⟩
    simp only [length_buildBatch, length_get_random_questions]
    omega
  refine ⟨habort, hsucc, ?_⟩
  intro hq
  by_cases hlt : (matchingRows s.store (quiz_option_map qt)).length < 10
  · rw [habort hlt, hstage] at hq
    exact Stage.noConfusion hq
  · exact (hsucc (by omega)).2.1

/-- Witness for C3: with only three stored rows the start is refused and
the state is unchanged. -/
theorem c3_witness :
    start_quiz (matchingRows store3 (quiz_option_map QuizType.randomQuiz)) rands0
        (AppState.mk initial_session store3) QuizType.randomQuiz =
      AppState.mk initial_session store3 :=
  (c3_start_full_batch_or_abort (AppState.mk initial_session store3) QuizType.randomQuiz
      (matchingRows store3 (quiz_option_map QuizType.randomQuiz)) rands0 rfl
      (List.Perm.refl _)).1 (by decide)

/-- A concrete results-stage session holding a finished answer. -/
def resultsState : AppState :=
  { session :=
      { current_stage := Stage.results
        quiz_type := some "Random Quiz"
        questions := [dummyBatchQ]
        current_question_index := 1
        user_answers := ["A"]
        results := [{ question := "Q", correct_answer := "A", user_answer := "A",
                      is_correct := true }] }
    store := [mkRow 1 true true] }

/-- Counterexample to claim C4: the return-to-menu handler does not
discard the batch, the answers or the results, and does not clear the
quiz-type label; it only changes the stage. -/
theorem c4_counterexample :
    (return_to_menu resultsState).session.current_stage = Stage.menu ∧
    (return_to_menu resultsState).session.questions ≠ [] ∧
    (return_to_menu resultsState).session.user_answers ≠ [] ∧
    (return_to_menu resultsState).session.results ≠ [] ∧
    (return_to_menu resultsState).session.quiz_type ≠ none := by
  refine ⟨rfl, ?_, ?_, ?_, ?_⟩ <;> decide

/-- Claim C4 amended: the return-to-menu event only sets the stage back
to Menu; the batch, accumulated answers, accumulated results and the
quiz-type label are left in place (they are overwritten only by the next
start), and the store is untouched. -/
theorem c4_return_only_sets_stage :
    ∀ s : AppState,
      (return_to_menu s).session.current_stage = Stage.menu ∧
      (return_to_menu s).session.questions = s.session.questions ∧
      (return_to_menu s).session.current_question_index =
        s.session.current_question_index ∧
      (return_to_menu s).session.user_answers = s.session.user_answers ∧
      (return_to_menu s).session.results = s.session.results ∧
      (return_to_menu s).session.quiz_type = s.session.quiz_type ∧
      (return_to_menu s).store = s.store :=
  fun _ => ⟨rfl, rfl, rfl, rfl, rfl, rfl, rfl⟩

/-- A concrete one-question quiz-stage session about to be answered. -/
def cQuizState : AppState :=
  { session :=
      { current_stage := Stage.quiz
        quiz_type := some "Random Quiz"
        questions := [dummyBatchQ]
        current_question_index := 0
        user_answers := []
        results := [] }
    store := [mkRow 1 false false] }

/-- The state produced by submitting the answer `"A"` in `cQuizState`. -/
def cS2 : AppState :=
  { session :=
      { current_stage := Stage.results
        quiz_type := some "Random Quiz"
        questions := [dummyBatchQ]
        current_question_index := 1
        user_answers := ["A"]
        results := [{ question := "Q", correct_answer := "A", user_answer := "A",
                      is_correct := true }] }
    store := [mkRow 1 true true] }

/-- Claim C5: `submit_answer` judges the submitted option correct exactly
when it is string-equal to the current question's stored correct answer,
and the appended result record carries that question's text, its stored
correct answer, the submitted answer and the correctness boolean. -/
theorem c5_submit_judges_exact_match :
    ∀ (s : AppState) (ans : String) (cq : BatchQuestion),
      s.session.questions[s.session.current_question_index]? = some cq →
      (submit_answer s ans).isSome = true ∧
      ∀ s2, submit_answer s ans = some s2 →
        s2.session.results = s.session.results ++
          [{ question := cq.question, correct_answer := cq.answer,
             user_answer := ans, is_correct := ans == cq.answer }] ∧
        ((ans == cq.answer) = true ↔ ans = cq.answer) := by
  intro s ans cq hq
  unfold submit_answer
  rw [hq]
  refine ⟨rfl, ?_⟩
  intro s2 hs2
  obtain rfl := Option.some.inj hs2
  exact ⟨rfl, beq_iff_eq⟩

/-- Witness for C5 on a concrete one-question quiz. -/
theorem c5_witness :
    cS2.session.results = cQuizState.session.results ++
      [{ question := dummyBatchQ.question, correct_answer := dummyBatchQ.answer,
         user_answer := "A", is_correct := ("A" == dummyBatchQ.answer) }] ∧
    (("A" == dummyBatchQ.answer) = true ↔ "A" = dummyBatchQ.answer) :=
  (c5_submit_judges_exact_match cQuizState "A" dummyBatchQ (by decide)).2 cS2 (by decide)

/-- Claim C6: the `record_answer` update sets `has_asked` and
`user_answered_correctly` on exactly the row with the given id, leaves
every other row untouched and every other field of the updated row
unchanged, and a read of that id afterwards observes the new flags. -/
theorem c6_record_answer_frame :
    ∀ (store : List Row) (qid : Int) (correct : Bool),
      (updateQuestionRecord store qid correct).length = store.length ∧
      (∀ (i : Nat) (hi : i < store.length)
        (hu : i < (updateQuestionRecord store qid correct).length),
        ((store.get ⟨i, hi⟩).id ≠ qid →
          (updateQuestionRecord store qid correct).get ⟨i, hu⟩ = store.get ⟨i, hi⟩) ∧
        ((store.get ⟨i, hi⟩).id = qid →
          (updateQuestionRecord store qid correct).get ⟨i, hu⟩ =
            { store.get ⟨i, hi⟩ with
                has_asked := true, user_answered_correctly := correct })) ∧
      (∀ r ∈ updateQuestionRecord store qid correct, r.id = qid →
        r.has_asked = true ∧ r.user_answered_correctly = correct) := by
  intro store qid correct
  refine ⟨by simp [updateQuestionRecord], ?_, ?_⟩
  · intro i hi hu
    constructor
    · intro hne
      simp only [updateQuestionRecord, List.get_eq_getElem, List.getElem_map]
      exact if_neg hne
    · intro he
      simp only [updateQuestionRecord, List.get_eq_getElem, List.getElem_map]
      exact if_pos he
  · intro r hr hid
    simp only [updateQuestionRecord, List.mem_map] at hr
    obtain ⟨r0, hr0, rfl⟩ := hr
    by_cases h0 : r0.id = qid <;> simp [h0] at hid ⊢

/-- Witness for C6 on a two-row table: row id 2 is untouched, row id 1
gets the new flags with all other fields kept. -/
theorem c6_witness :
    (updateQuestionRecord cstore6 1 true).length = cstore6.length ∧
    (updateQuestionRecord cstore6 1 true).get ⟨1, by decide⟩ = cstore6.get ⟨1, by decide⟩ ∧
    (updateQuestionRecord cstore6 1 true).get ⟨0, by decide⟩ =
      { cstore6.get ⟨0, by decide⟩ with
          has_asked := true, user_answered_correctly := true } :=
  ⟨(c6_record_answer_frame cstore6 1 true).1,
    ((c6_record_answer_frame cstore6 1 true).2.1 1 (by decide) (by decide)).1 (by decide),
    ((c6_record_answer_frame cstore6 1 true).2.1 0 (by decide) (by decide)).2 (by decide)⟩

/-- Claim C7: in a successfully started batch every question carries
shuffled options that are a permutation of its stored option list (so
multisets agree, and a correct answer occurring exactly once still occurs
exactly once), every batch question comes from a fetched row, and
starting a quiz never mutates the persistent store. -/
theorem c7_shuffle_is_permutation :
    ∀ (s : AppState) (qt : QuizType) (shuffled : List Row) (rands : Nat → Nat → Nat),
      (start_quiz shuffled rands s qt).store = s.store ∧
      (10 ≤ shuffled.length →
        ∀ bq ∈ (start_quiz shuffled rands s qt).session.questions,
          bq.shuffled_options.Perm (optionList bq.toQuestion) ∧
          (List.count bq.answer (optionList bq.toQuestion) = 1 →
            List.count bq.answer bq.shuffled_options = 1) ∧
          ∃ r ∈ shuffled, bq.toQuestion = rowToQuestion r) := by
  intro s qt shuffled rands
  constructor
  · unfold start_quiz
    split <;> rfl
  · intro hlen bq hbq
    rw [start_quiz, if_neg (by rw [length_get_random_questions]; omega)] at hbq
    have hbq2 : bq ∈ buildBatch rands 0 (get_random_questions shuffled) := hbq
    obtain ⟨q, hq, j, rfl⟩ := mem_buildBatch hbq2
    refine ⟨shuffleList_perm (rands j) (optionList q), ?_, ?_⟩
    · intro hc
      exact ((shuffleList_perm (rands j) (optionList q)).count_eq _).trans hc
    · simp only [get_random_questions, List.mem_map] at hq
      obtain ⟨r, hr, rfl⟩ := hq
      exact ⟨r, (List.take_sublist 10 shuffled).subset hr, rfl⟩

/-- The batch produced by a concrete successful start. -/
def cBatch : List BatchQuestion :=
  (start_quiz store10 rands0 (AppState.mk initial_session store10)
    QuizType.randomQuiz).session.questions

/-- The first question of that concrete batch. -/
def cBQ : BatchQuestion := cBatch.getD 0 dummyBatchQ

/-- Witness for C7: the concrete start leaves the store unchanged and the
first batch question's shuffled options are a permutation of its stored
option list. -/
theorem c7_witness :
    (start_quiz store10 rands0 (AppState.mk initial_session store10)
        QuizType.randomQuiz).store = (AppState.mk initial_session store10).store ∧
    cBQ.shuffled_options.Perm (optionList cBQ.toQuestion) :=
  ⟨(c7_shuffle_is_permutation (AppState.mk initial_session store10) QuizType.randomQuiz
      store10 rands0).1,
    ((c7_shuffle_is_permutation (AppState.mk initial_session store10) QuizType.randomQuiz
      store10 rands0).2 (by decide) cBQ (by decide)).1⟩

/-- Counterexample to claim C8: with eleven stored questions, the
UNASKED query after a reset returns only 10 questions, not the full set
of the user's questions. -/
theorem c8_counterexample :
    (get_random_questions (matchingRows (reset_all_questions store11) 2)).length = 10 ∧
    (reset_all_questions store11).length = 11 ∧
    get_random_questions (matchingRows (reset_all_questions store11) 2) ≠
      (reset_all_questions store11).map rowToQuestion := by
  refine ⟨?_, ?_, ?_⟩ <;> decide

/-- Claim C8 amended: after `reset_all_questions` every row has both
flags false; a subsequent INCORRECT query returns the empty list, and a
subsequent UNASKED query draws from the full set of the user's questions
(every row matches the filter), returning `min 10 n` of them. -/
theorem c8_reset_then_queries :
    ∀ (store shuffled2 shuffled3 : List Row),
      (∀ r ∈ reset_all_questions store,
        r.has_asked = false ∧ r.user_answered_correctly = false) ∧
      (shuffled3.Perm (matchingRows (reset_all_questions store) 3) →
        get_random_questions shuffled3 = []) ∧
      (shuffled2.Perm (matchingRows (reset_all_questions store) 2) →
        (get_random_questions shuffled2).length = min 10 store.length ∧
        ∀ q ∈ get_random_questions shuffled2,
          ∃ r ∈ reset_all_questions store, rowToQuestion r = q) := by
  intro store shuffled2 shuffled3
  have hflags : ∀ r ∈ reset_all_questions store,
      r.has_asked = false ∧ r.user_answered_correctly = false := by
    intro r hr
    simp only [reset_all_questions, List.mem_map] at hr
    obtain ⟨r0, -, rfl⟩ := hr
    exact ⟨rfl, rfl⟩
  have hm3 : matchingRows (reset_all_questions store) 3 = [] := by
    rw [matchingRows, List.filter_eq_nil_iff]
    intro r hr
    simp [filterPred, (hflags r hr).1]
  have hm2 : matchingRows (reset_all_questions store) 2 = reset_all_questions store := by
    rw [matchingRows, List.filter_eq_self]
    intro r hr
    simp [filterPred, (hflags r hr).1]
  refine ⟨hflags, ?_, ?_⟩
  · intro hperm
    rw [hm3] at hperm
    rw [List.perm_nil.mp hperm]
    rfl
  · intro hperm
    rw [hm2] at hperm
    constructor
    · rw [length_get_random_questions, hperm.length_eq]
      simp [reset_all_questions]
    · intro q hq
      simp only [get_random_questions, List.mem_map] at hq
      obtain ⟨r, hr, rfl⟩ := hq
      exact ⟨r, hperm.mem_iff.mp ((List.take_sublist 10 _).subset hr), rfl⟩

/-- Witness for C8 on a concrete two-row table. -/
theorem c8_witness :
    get_random_questions (matchingRows (reset_all_questions cstore6) 3) = [] ∧
    (get_random_questions (matchingRows (reset_all_questions cstore6) 2)).length =
      min 10 cstore6.length :=
  ⟨(c8_reset_then_queries cstore6 (matchingRows (reset_all_questions cstore6) 2)
      (matchingRows (reset_all_questions cstore6) 3)).2.1 (List.Perm.refl _),
    ((c8_reset_then_queries cstore6 (matchingRows (reset_all_questions cstore6) 2)
      (matchingRows (reset_all_questions cstore6) 3)).2.2 (List.Perm.refl _)).1⟩

/-- Claim C9: seeding copies the master verbatim into an empty table,
a non-empty table is returned unchanged, and a second call never
re-seeds a table the first call left non-empty. -/
theorem c9_seed_once :
    ∀ (user master master2 : List Row),
      (user = [] → init_user_database user master = master) ∧
      (user ≠ [] → init_user_database user master = user) ∧
      (init_user_database user master ≠ [] →
        init_user_database (init_user_database user master) master2 =
          init_user_database user master) := by
  intro user master master2
  refine ⟨?_, ?_, ?_⟩
  · intro h
    subst h
    rfl
  · intro h
    unfold init_user_database
    rw [if_neg (by simpa [List.isEmpty_iff] using h)]
  · intro h
    have hne : ¬(init_user_database user master).isEmpty = true := by
      simpa [List.isEmpty_iff] using h
    rw [init_user_database]
    exact if_neg hne

/-- Witness for C9: an empty table is seeded from the master, a seeded
table is never re-seeded. -/
theorem c9_witness :
    init_user_database [] cstore6 = cstore6 ∧
    init_user_database cstore6 store3 = cstore6 :=
  ⟨(c9_seed_once [] cstore6 store3).1 rfl,
    (c9_seed_once cstore6 store3 store3).2.1 (by decide)⟩

/-- A quiz-stage session whose batch is already exhausted (position equal
to the batch length), as produced by dispatching submit out of turn. -/
def badSubmitState : AppState :=
  { session := { initial_session with current_stage := Stage.quiz }, store := [] }

/-- Counterexample to claim C10: `submit_answer` has no guard; dispatched
with the position equal to the batch length it indexes the batch out of
bounds (an `IndexError`, modelled by `none`) instead of ignoring the
event and leaving the session unchanged. -/
theorem c10_counterexample :
    badSubmitState.session.current_question_index =
      badSubmitState.session.questions.length ∧
    submit_answer badSubmitState "A" = none :=
  ⟨rfl, rfl⟩

/-- Claim C10 amended: the handler itself performs no guard, but the
application dispatches submit only in the quiz stage, and in every
reachable quiz-stage state the position is strictly below the batch
length, so the unguarded access never goes out of bounds. -/
theorem c10_no_guard_but_dispatch_safe :
    ∀ (s : AppState) (a : String), Reachable s →
      s.session.current_stage = Stage.quiz →
      s.session.current_question_index < s.session.questions.length ∧
      (submit_answer s a).isSome = true := by
  intro s a hs hstage
  have hlt := (reachable_inv hs).2.2.2.2 hstage
  refine ⟨hlt, ?_⟩
  unfold submit_answer
  rw [List.getElem?_eq_getElem hlt]
  rfl

/-- A concrete reachable quiz-stage state obtained by a successful start. -/
def cStarted : AppState :=
  start_quiz (matchingRows store10 (quiz_option_map QuizType.randomQuiz)) rands0
    (AppState.mk initial_session store10) QuizType.randomQuiz

/-- Witness for C10 amended at the concrete started state. -/
theorem c10_witness :
    cStarted.session.current_question_index < cStarted.session.questions.length ∧
    (submit_answer cStarted "A").isSome = true :=
  c10_no_guard_but_dispatch_safe cStarted "A"
    (Reachable.start (AppState.mk initial_session store10) QuizType.randomQuiz
      (matchingRows store10 (quiz_option_map QuizType.randomQuiz)) rands0
      (Reachable.init store10) rfl (List.Perm.refl _))
    (by decide)

end Quiz
